import Mathlib

/-!
Shallow embedding of `src/scrapefide.py` (FIDEScraper).

Modelling conventions:
* Python numbers: `int` becomes `Int`; values read with Python's `float(...)`
  and the score arithmetic of `calc_performance` are modelled exactly with
  `Rat` (the inputs are decimal strings, and the two-decimal rounding of the
  score keeps all values well inside the range where the float computations
  agree with exact rational arithmetic).
* Python's built-in `round(x, 2)` rounds half to even; `roundHE` below is
  that rounding on rationals, scaled by 100 in `roundTo2`.
* Fallible Python code (exceptions) becomes `Except PyErr`; the constructors
  of `PyErr` name the exception classes the interpreter actually raises.
* The HTTP fetch and BeautifulSoup are external collaborators: a fetched page
  is modelled by the `ReportDocument` record of the query results the script
  extracts from it (the two `contentpaneopen` tables' text, and the two
  bgcolor-marked row groups as lists of cell texts).
-/

/-- Exceptions that can escape the modelled fragment of `scrapefide.py`.
`typeErrorStrDiv` is the `TypeError` raised on line 131 of the source, where
the message of the intended `RuntimeError` is built with `'...' / '...'`
(string division) instead of concatenation. -/
inductive PyErr : Type where
  /-- `ZeroDivisionError` from `pts / rds` with `rds = 0` (line 87). -/
  | zeroDivisionError : PyErr
  /-- `KeyError` from `PERFORMANCE_TABLE[score]` (line 88). -/
  | keyError (score : Rat) : PyErr
  /-- `ValueError` from tuple unpacking with the wrong number of values
  (lines 135-138); carries the expected and the actual count, as the
  interpreter's message does — but no row index. -/
  | valueErrorUnpack (expected got : Nat) : PyErr
  /-- `ValueError` from `float(s)` on a non-numeric string (lines 144, 147). -/
  | valueErrorFloat (s : String) : PyErr
  /-- `ValueError` from `int(s)` on a non-numeric string (lines 145, 146). -/
  | valueErrorInt (s : String) : PyErr
  /-- `TypeError` from `'str' / 'str'` while building the message of the
  size-mismatch `RuntimeError` (lines 130-132): the intended `RuntimeError`
  is never constructed. -/
  | typeErrorStrDiv : PyErr
deriving DecidableEq

/-- The score-to-rating-difference dict literal of lines 14-30, in source
order, with the float keys read as exact rationals. -/
def PERFORMANCE_TABLE : List (Rat × Int) :=
  [(1, 800), (99/100, 677), (98/100, 589), (97/100, 538), (96/100, 501),
   (95/100, 470), (94/100, 444),
   (93/100, 422), (92/100, 401), (91/100, 383), (9/10, 366), (89/100, 351),
   (88/100, 336), (87/100, 322),
   (86/100, 309), (85/100, 296), (84/100, 284), (83/100, 273), (82/100, 262),
   (81/100, 251), (8/10, 240),
   (79/100, 230), (78/100, 220), (77/100, 211), (76/100, 202), (75/100, 193),
   (74/100, 184), (73/100, 175),
   (72/100, 166), (71/100, 158), (70/100, 149), (69/100, 141), (68/100, 133),
   (67/100, 125), (66/100, 117),
   (65/100, 110), (64/100, 102), (63/100, 95), (62/100, 87), (61/100, 80),
   (6/10, 72), (59/100, 65),
   (58/100, 57), (57/100, 50), (56/100, 43), (55/100, 36), (54/100, 29),
   (53/100, 21), (52/100, 14), (51/100, 7),
   (5/10, 0), (49/100, -7), (48/100, -14), (47/100, -21), (46/100, -29),
   (45/100, -36), (44/100, -43),
   (43/100, -50), (42/100, -57), (41/100, -65), (4/10, -72), (39/100, -80),
   (38/100, -87), (37/100, -95),
   (36/100, -102), (35/100, -110), (34/100, -117), (33/100, -125),
   (32/100, -133), (31/100, -141),
   (3/10, -149), (29/100, -158), (28/100, -166), (27/100, -175),
   (26/100, -184), (25/100, -193),
   (24/100, -202), (23/100, -211), (22/100, -220), (21/100, -230),
   (2/10, -240), (19/100, -251),
   (18/100, -262), (17/100, -273), (16/100, -284), (15/100, -296),
   (14/100, -309), (13/100, -322),
   (12/100, -336), (11/100, -351), (1/10, -366), (9/100, -383),
   (8/100, -401), (7/100, -422),
   (6/100, -444), (5/100, -470), (4/100, -501), (3/100, -538),
   (2/100, -589), (1/100, -677), (0, -800)]

/-- Python's `round` to the nearest integer: round half to even. -/
def roundHE (q : Rat) : Int :=
  if q - q.floor < 1/2 then q.floor
  else if 1/2 < q - q.floor then q.floor + 1
  else if q.floor % 2 = 0 then q.floor else q.floor + 1

/-- Python's `round(q, 2)` on an exact rational value. -/
def roundTo2 (q : Rat) : Rat := (roundHE (q * 100) : Rat) / 100

/-- Lines 73-89: `calc_performance(avg, pts, rds)`.  The `type(pts) == int`
coercion to `float` of lines 84-85 is the identity in the rational model.
Evaluation order: the division (which raises `ZeroDivisionError` on
`rds = 0`) happens on line 87, before the table lookup of line 88. -/
def calc_performance (avg : Int) (pts : Rat) (rds : Int) : Except PyErr Int :=
  if rds = 0 then .error .zeroDivisionError
  else
    let score := roundTo2 (pts / (rds : Rat))
    match PERFORMANCE_TABLE.lookup score with
    | some offset => .ok (avg + offset)
    | none => .error (.keyError score)

deriving instance DecidableEq for Except

/-- Replacement of the non-overlapping occurrences of `pat`, scanning left
to right; fuel-based so the kernel can evaluate it (`fuel` bounds the number
of steps, and each step consumes at least one character). -/
def replaceAux (pat rep : List Char) : Nat → List Char → List Char
  | _, [] => []
  | 0, cs => cs
  | fuel + 1, c :: rest =>
    if pat.isPrefixOf (c :: rest) && !pat.isEmpty then
      rep ++ replaceAux pat rep fuel ((c :: rest).drop pat.length)
    else
      c :: replaceAux pat rep fuel rest

/-- Python's `s.replace(pat, rep)` for a nonempty `pat`. -/
def pyReplace (s pat rep : String) : String :=
  ⟨replaceAux pat.data rep.data s.data.length s.data⟩

/-- A cell's text after the `x.text.replace(u'\xa0', '')` of lines 136 and
138: the non-breaking-space characters are stripped. -/
def stripNbsp (s : String) : String := pyReplace s "\u00A0" ""

/-- Value of a digit string (most significant first). -/
def digitsVal (cs : List Char) : Nat :=
  cs.foldl (fun a c => a * 10 + (c.toNat - 48)) 0

/-- A nonempty string of decimal digits. -/
def isDigits (cs : List Char) : Bool :=
  !cs.isEmpty && cs.all (·.isDigit)

/-- Python's `int(s)` on a plain decimal string: optional sign followed by
digits, otherwise `ValueError` (modelled as `none`). -/
def pyInt? (s : String) : Option Int :=
  match s.data with
  | '+' :: rest => if isDigits rest then some (digitsVal rest) else none
  | '-' :: rest => if isDigits rest then some (-(digitsVal rest : Int)) else none
  | cs => if isDigits cs then some (digitsVal cs) else none

/-- Unsigned part of Python's `float(s)` on a plain decimal literal:
digits with an optional decimal point (`"7"`, `"7."`, `".5"`, `"4.5"`),
read as an exact rational. -/
def pyFloatCore (cs : List Char) : Option Rat :=
  match cs.splitOn '.' with
  | [w] => if isDigits w then some ((digitsVal w : Nat) : Rat) else none
  | [w, f] =>
    if (w.all (·.isDigit)) && (f.all (·.isDigit)) && !(w.isEmpty && f.isEmpty) then
      some (((digitsVal w : Nat) : Rat) + ((digitsVal f : Nat) : Rat) / ((10 : Rat) ^ f.length))
    else none
  | _ => none

/-- Python's `float(s)` on a plain decimal literal with optional sign,
otherwise `ValueError` (modelled as `none`). -/
def pyFloat? (s : String) : Option Rat :=
  match s.data with
  | '+' :: rest => pyFloatCore rest
  | '-' :: rest => (pyFloatCore rest).map (fun q => -q)
  | cs => pyFloatCore cs

/-- The `new_tourn` dict of lines 140-151, one parsed tournament. -/
structure Tournament where
  rating_period : String
  tournament_name : String
  city : String
  country : String
  pts : Rat
  rds : Int
  avg_opponents : Int
  rtg_change : Rat
  performance : Int
deriving DecidableEq

/-- Lines 135-152, one iteration of the row loop: unpack the 4 header cells
and the 8 score cells (a count mismatch is the interpreter's unpacking
`ValueError`, carrying expected and actual counts but no row index), coerce
`float(pts)`, `int(rds)`, `int(opp_avg)`, `float(rating_change)` in the
evaluation order of the dict literal, then call `calc_performance`. -/
def parsePair (period : String) (hrow srow : List String) : Except PyErr Tournament :=
  match hrow.map stripNbsp with
  | [trn_name, city, country, _date] =>
    match srow.map stripNbsp with
    | [opp_avg, _ply_rtg, pts, rds, _chg, _kFactor, rating_change, _extra] =>
      match pyFloat? pts with
      | none => .error (.valueErrorFloat pts)
      | some ptsV =>
        match pyInt? rds with
        | none => .error (.valueErrorInt rds)
        | some rdsV =>
          match pyInt? opp_avg with
          | none => .error (.valueErrorInt opp_avg)
          | some avgV =>
            match pyFloat? rating_change with
            | none => .error (.valueErrorFloat rating_change)
            | some chgV =>
              match calc_performance avgV ptsV rdsV with
              | .error e => .error e
              | .ok perf =>
                .ok { rating_period := period, tournament_name := trn_name,
                      city := city, country := country, pts := ptsV,
                      rds := rdsV, avg_opponents := avgV, rtg_change := chgV,
                      performance := perf }
    | cells => .error (.valueErrorUnpack 8 cells.length)
  | cells => .error (.valueErrorUnpack 4 cells.length)

/-- The `for i in range(len(trn_headers))` loop of lines 134-152 over the
positionally paired rows, in source order; the first exception aborts the
whole call (nothing of this document is returned). -/
def parsePairs (period : String) :
    List (List String × List String) → Except PyErr (List Tournament)
  | [] => .ok []
  | (hrow, srow) :: rest =>
    match parsePair period hrow srow with
    | .error e => .error e
    | .ok t =>
      match parsePairs period rest with
      | .error e => .error e
      | .ok ts => .ok (t :: ts)

/-- Lines 127-152: the per-document parse.  On a length mismatch of the two
row groups, line 130's `raise RuntimeError('...' / '...')` evaluates a
string division, so the `TypeError` it raises is what escapes; with equal
lengths, pairing `trn_headers[i]` with `trn_scores[i]` is exactly `zip`. -/
def parseTables (period : String) (trn_headers trn_scores : List (List String)) :
    Except PyErr (List Tournament) :=
  if trn_headers.length ≠ trn_scores.length then .error .typeErrorStrDiv
  else parsePairs period (trn_headers.zip trn_scores)

/-- Line 34 of the source. -/
def NO_RECORDS_STRING : String :=
  "No records found in individual calculations for this period."

/-- One fetched report page, as the script queries it (lines 112-128): the
text of the two `contentpaneopen` tables, and the two bgcolor-marked row
groups, each row a list of its cells' texts. -/
structure ReportDocument where
  table0Text : String
  table1Text : String
  trn_headers : List (List String)
  trn_scores : List (List String)
deriving DecidableEq

/-- Lines 114-116: the period label extracted from the first table's text. -/
def extractPeriod (doc : ReportDocument) : String :=
  ⟨((pyReplace (pyReplace doc.table0Text "\n" "") "Individual Calculations " "").data).dropLast⟩

/-- Outcome of one period's fetch-and-parse, before accumulation. -/
inductive FetchOutcome : Type where
  | noRecords (period : String) : FetchOutcome
  | records (period : String) (ts : List Tournament) : FetchOutcome
deriving DecidableEq

/-- Lines 114-152, the body of the per-URL loop after the HTTP fetch: the
no-records sentinel test of line 118 against the second table's text (with
newlines removed), then the table parse. -/
def processDoc (doc : ReportDocument) : Except PyErr FetchOutcome :=
  let period := extractPeriod doc
  if pyReplace doc.table1Text "\n" "" = NO_RECORDS_STRING then
    .ok (.noRecords period)
  else
    match parseTables period doc.trn_headers doc.trn_scores with
    | .error e => .error e
    | .ok ts => .ok (.records period ts)

/-- Lines 92-156: `scrape_rating_reports`, with the HTTP transport
abstracted away as the list of fetched documents, one per URL.  A raised
exception aborts the whole run (the accumulated `tournaments` list is never
returned); the `continue` of line 120 skips the rest of the loop body. -/
def scrape_rating_reports : List ReportDocument → Except PyErr (List Tournament)
  | [] => .ok []
  | doc :: rest =>
    match processDoc doc with
    | .error e => .error e
    | .ok (.noRecords _) => scrape_rating_reports rest
    | .ok (.records _ ts) =>
      match scrape_rating_reports rest with
      | .error e => .error e
      | .ok acc => .ok (ts ++ acc)

/-- Observable events of one run: issuing the fetch for the i-th period
(lines 109-110) and `time.sleep` (line 154). -/
inductive Ev : Type where
  | fetch (i : Nat) : Ev
  | sleep (seconds : Nat) : Ev
deriving DecidableEq

/-- The event trace of `scrape_rating_reports`: each loop iteration fetches;
on the no-records path the `continue` of line 120 jumps straight to the next
iteration, bypassing line 154's `time.sleep(1)`; on the parsed path the
sleep runs; an exception ends the run. -/
def scrapeTrace : List ReportDocument → Nat → List Ev
  | [], _ => []
  | doc :: rest, i =>
    Ev.fetch i ::
      match processDoc doc with
      | .error _ => []
      | .ok (.noRecords _) => scrapeTrace rest (i + 1)
      | .ok (.records _ _) => Ev.sleep 1 :: scrapeTrace rest (i + 1)

/-- A trace respects the throttle when no two fetches are adjacent: some
sleep separates every pair of consecutive fetches. -/
def noBackToBackFetches : List Ev → Bool
  | Ev.fetch _ :: Ev.fetch _ :: _ => false
  | _ :: rest => noBackToBackFetches rest
  | [] => true

/-- The `tm_mon` normalization performed by `time.mktime`/`time.localtime`
in lines 62-64: a month value outside [1,12] rolls the year (month 0 is
December of the previous year, and so on), exactly Euclidean division of
`m - 1` by 12. -/
def normMonth (y m : Int) : Int × Int :=
  (y + (m - 1) / 12, (m - 1) % 12 + 1)

/-- Lines 60-64: the `periods` list of `get_rating_urls`, one pair per
`n in range(months)`, starting from the current (year, month). -/
def get_rating_periods (y m : Int) (months : Nat) : List (Int × Int) :=
  (List.range months).map (fun (n : Nat) => normMonth y (m - (n : Int)))

/-- Lines 47-48 and 65-68: the `CALCULATION_URL.format(...)` string for one
period (`{month:02d}` zero-pads the month to two digits). -/
def calculationUrl (playerId : String) (y m : Int) : String :=
  "https://ratings.fide.com/individual_calculations.phtml?idnumber=" ++ playerId
    ++ "&rating_period=" ++ toString y ++ "-"
    ++ (if 0 ≤ m && m < 10 then "0" ++ toString m else toString m) ++ "-01&t=0"

/-- Lines 51-70: `get_rating_urls`, with "now" made an explicit (year,
month) argument. -/
def get_rating_urls (playerId : String) (y m : Int) (months : Nat) : List String :=
  (get_rating_periods y m months).map (fun p => calculationUrl playerId p.1 p.2)

/-- Modelled from the spec (section 4.1): stepping back one calendar month,
with January rolling over to December of the previous year.  Used to state
that the code's enumeration follows calendar rollover. -/
def prevMonth : Int × Int → Int × Int
  | (y, m) => if m = 1 then (y - 1, 12) else (y, m - 1)

/-- A structurally well-formed (header row, score row) pair, the weakest
condition under which the code's row loop succeeds: 4 header cells, 8 score
cells, the four consumed score cells coerce, nonzero rounds, and a score
ratio that is a key of the Performance Table. -/
def wellFormedPair (hr sr : List String) : Bool :=
  match hr.map stripNbsp, sr.map stripNbsp with
  | [_, _, _, _], [opp_avg, _, pts, rds, _, _, rating_change, _] =>
    (pyFloat? pts).isSome && (pyInt? rds).isSome && (pyInt? opp_avg).isSome &&
    (pyFloat? rating_change).isSome && ((pyInt? rds).getD 0 != 0) &&
    (PERFORMANCE_TABLE.lookup (roundTo2
      ((pyFloat? pts).getD 0 / (((pyInt? rds).getD 0 : Int) : Rat)))).isSome
  | _, _ => false

/-- An association-list lookup hit is a member of the list. -/
theorem lookup_mem {α β : Type} [BEq α] [LawfulBEq α] :
    ∀ {l : List (α × β)} {k : α} {v : β}, l.lookup k = some v → (k, v) ∈ l
  | (a, b) :: rest, k, v, h => by
    rw [List.lookup_cons] at h
    by_cases hk : k == a
    · simp only [hk] at h
      cases h
      have : k = a := eq_of_beq hk
      subst this
      exact List.mem_cons_self _ _
    · simp only [Bool.not_eq_true] at hk
      simp only [hk] at h
      exact List.mem_cons_of_mem _ (lookup_mem h)

/-- `calc_performance` on a nonzero round count whose rounded score is in
the table: the sum of the average and the offset. -/
theorem calc_performance_ok {avg : Int} {pts : Rat} {rds : Int} {off : Int}
    (hrds : rds ≠ 0)
    (hl : PERFORMANCE_TABLE.lookup (roundTo2 (pts / (rds : Rat))) = some off) :
    calc_performance avg pts rds = .ok (avg + off) := by
  simp [calc_performance, hrds, hl]

unseal Rat.add Rat.mul Rat.sub Rat.inv in
/-- C1: for every integer `avg_opponent_rating`, rational `points` and
positive integer `rounds` such that `round(points/rounds, 2)` is a key of
the Performance Table, `calc_performance` returns `avg + table[score]`; in
particular `calc_performance(2000, 7, 9) = 2220` and
`calc_performance(2200, 4.5, 9) = 2200`. -/
theorem spec_C1_calc_performance :
    (∀ (avg : Int) (pts : Rat) (rds : Int), 0 < rds →
      ∀ off : Int, PERFORMANCE_TABLE.lookup (roundTo2 (pts / (rds : Rat))) = some off →
        calc_performance avg pts rds = .ok (avg + off)) ∧
    calc_performance 2000 7 9 = .ok 2220 ∧
    calc_performance 2200 (9/2) 9 = .ok 2200 := by
  refine ⟨fun avg pts rds h off hl => calc_performance_ok (by omega) hl, ?_, ?_⟩
  · decide
  · decide

unseal Rat.add Rat.mul Rat.sub Rat.inv in
theorem spec_C1_witness : calc_performance 0 (1/2) 1 = .ok (0 + 0) :=
  spec_C1_calc_performance.1 0 (1/2) 1 (by decide) 0 (by decide)

/-- C7: when the records region (the second table's text, newlines removed)
equals the canonical no-records sentinel, the period's outcome is
`NoRecords` carrying the extracted period label, no error is raised, zero
records are emitted for the period, and the pipeline continues with the
remaining periods. -/
theorem spec_C7_no_records :
    ∀ (doc : ReportDocument) (docs : List ReportDocument),
      pyReplace doc.table1Text "\n" "" = NO_RECORDS_STRING →
      processDoc doc = .ok (.noRecords (extractPeriod doc)) ∧
      scrape_rating_reports (doc :: docs) = scrape_rating_reports docs := by
  intro doc docs h
  have hp : processDoc doc = .ok (.noRecords (extractPeriod doc)) := by
    simp [processDoc, h]
  exact ⟨hp, by simp [scrape_rating_reports, hp]⟩

theorem spec_C7_witness :
    processDoc { table0Text := "Individual Calculations 2024-May:",
                 table1Text := NO_RECORDS_STRING,
                 trn_headers := [], trn_scores := [] } =
      .ok (.noRecords (extractPeriod { table0Text := "Individual Calculations 2024-May:",
                                       table1Text := NO_RECORDS_STRING,
                                       trn_headers := [], trn_scores := [] })) ∧
    scrape_rating_reports [{ table0Text := "Individual Calculations 2024-May:",
                             table1Text := NO_RECORDS_STRING,
                             trn_headers := [], trn_scores := [] }] =
      scrape_rating_reports [] :=
  spec_C7_no_records _ [] (by decide)

/-- C9: a well-formed (header row, score row) pair yields the record whose
average-opponent rating is score cell 0 as an integer, points is cell 2 as
a rational, rounds is cell 3 as an integer, and retained rating change is
cell 6 as a signed rational; cells 1, 4, 5, 7 (and the header date) are
discarded — they are arbitrary here and absent from the result. -/
theorem spec_C9_field_mapping :
    ∀ (period n c k d a0 a1 a2 a3 a4 a5 a6 a7 : String)
      (ptsV chgV : Rat) (rdsV avgV perf : Int),
      pyInt? (stripNbsp a0) = some avgV →
      pyFloat? (stripNbsp a2) = some ptsV →
      pyInt? (stripNbsp a3) = some rdsV →
      pyFloat? (stripNbsp a6) = some chgV →
      calc_performance avgV ptsV rdsV = .ok perf →
      parsePair period [n, c, k, d] [a0, a1, a2, a3, a4, a5, a6, a7] =
        .ok { rating_period := period, tournament_name := stripNbsp n,
              city := stripNbsp c, country := stripNbsp k, pts := ptsV,
              rds := rdsV, avg_opponents := avgV, rtg_change := chgV,
              performance := perf } := by
  intro period n c k d a0 a1 a2 a3 a4 a5 a6 a7 ptsV chgV rdsV avgV perf h0 h2 h3 h6 hperf
  simp [parsePair, h0, h2, h3, h6, hperf]

unseal Rat.add Rat.mul Rat.sub Rat.inv in
theorem spec_C9_witness :
    parsePair "P" ["T", "C", "K", "D"] ["2000", "2100", "7", "9", "1", "10", "-3.4", "z"] =
      .ok { rating_period := "P", tournament_name := stripNbsp "T",
            city := stripNbsp "C", country := stripNbsp "K", pts := 7,
            rds := 9, avg_opponents := 2000, rtg_change := -(17/5),
            performance := 2220 } :=
  spec_C9_field_mapping "P" "T" "C" "K" "D" "2000" "2100" "7" "9" "1" "10" "-3.4" "z"
    7 (-(17/5)) 9 2000 2220 (by decide) (by decide) (by decide) (by decide) (by decide)

unseal Rat.add Rat.mul Rat.sub Rat.inv in
/-- C3: the claim that at least one throttle unit separates every two
consecutive period fetches is violated by the code: on the no-records path
the `continue` of line 120 bypasses `time.sleep(1)` on line 154, so a
no-records period is followed immediately by the next fetch.  Concretely, a
run over a no-records document and then an ordinary document fetches twice
back to back with no sleep between. -/
theorem spec_C3_throttle_skipped :
    scrapeTrace [{ table0Text := "x", table1Text := NO_RECORDS_STRING,
                   trn_headers := [], trn_scores := [] },
                 { table0Text := "y", table1Text := "s",
                   trn_headers := [], trn_scores := [] }] 0 =
      [Ev.fetch 0, Ev.fetch 1, Ev.sleep 1] ∧
    noBackToBackFetches
      (scrapeTrace [{ table0Text := "x", table1Text := NO_RECORDS_STRING,
                      trn_headers := [], trn_scores := [] },
                    { table0Text := "y", table1Text := "s",
                      trn_headers := [], trn_scores := [] }] 0) = false := by
  decide

unseal Rat.add Rat.mul Rat.sub Rat.inv in
/-- C4: on a document with 2 header rows and 3 score rows the run aborts
with no records for the document — but the exception is the `TypeError`
from line 131's `'...' / '...'` (string division in the message of the
intended `RuntimeError`), not the intended structural-mismatch
`RuntimeError`. -/
theorem spec_C4_mismatch_typeerror :
    processDoc { table0Text := "x", table1Text := "y",
                 trn_headers := [["a", "b", "c", "d"], ["e", "f", "g", "h"]],
                 trn_scores := [["1", "2", "3", "4", "5", "6", "7", "8"],
                                ["1", "2", "3", "4", "5", "6", "7", "8"],
                                ["1", "2", "3", "4", "5", "6", "7", "8"]] } =
      .error .typeErrorStrDiv ∧
    scrape_rating_reports
      [{ table0Text := "x", table1Text := "y",
         trn_headers := [["a", "b", "c", "d"], ["e", "f", "g", "h"]],
         trn_scores := [["1", "2", "3", "4", "5", "6", "7", "8"],
                        ["1", "2", "3", "4", "5", "6", "7", "8"],
                        ["1", "2", "3", "4", "5", "6", "7", "8"]] }] =
      .error .typeErrorStrDiv := by
  decide

/-- Month values already in [1, 12] are left unchanged by the `mktime`
normalization. -/
theorem normMonth_id (y m : Int) (h1 : 1 ≤ m) (h2 : m ≤ 12) : normMonth y m = (y, m) := by
  simp only [normMonth, Prod.mk.injEq]
  omega

/-- Decrementing the month argument before normalization is stepping one
calendar month back after normalization. -/
theorem normMonth_pred (y k : Int) : normMonth y (k - 1) = prevMonth (normMonth y k) := by
  simp only [normMonth, prevMonth]
  split
  · next h => simp only [Prod.mk.injEq]; omega
  · next h => simp only [Prod.mk.injEq]; omega

/-- Normalizing `m - i` is stepping back `i` calendar months from the
normalization of `m`. -/
theorem normMonth_sub_iterate (y m : Int) (i : Nat) :
    normMonth y (m - (i : Int)) = prevMonth^[i] (normMonth y m) := by
  induction i with
  | zero => simp
  | succ n ih =>
    have h : m - ((n + 1 : Nat) : Int) = (m - (n : Int)) - 1 := by push_cast; ring
    rw [h, normMonth_pred, ih, Function.iterate_succ_apply']

/-- C5: for every positive `months`, period enumeration returns exactly
`months` (year, month) pairs, most recent first — the i-th entry is the
start month stepped back i calendar months, with correct year rollover —
and in particular three months from March of year Y are [(Y,3),(Y,2),(Y,1)]
while three months from January are [(Y,1),(Y-1,12),(Y-1,11)]. -/
theorem spec_C5_period_enumeration :
    (∀ (y m : Int) (months : Nat), (get_rating_periods y m months).length = months) ∧
    (∀ (y m : Int) (months i : Nat), 1 ≤ m → m ≤ 12 → i < months →
      (get_rating_periods y m months)[i]? = some (prevMonth^[i] (y, m))) ∧
    (∀ y : Int, get_rating_periods y 3 3 = [(y, 3), (y, 2), (y, 1)]) ∧
    (∀ y : Int, get_rating_periods y 1 3 = [(y, 1), (y - 1, 12), (y - 1, 11)]) := by
  refine ⟨?_, ?_, ?_, ?_⟩
  · intro y m months
    simp only [get_rating_periods, List.length_map, List.length_range]
  · intro y m months i h1 h2 hi
    rw [get_rating_periods, List.getElem?_map, List.getElem?_range hi, Option.map_some',
        normMonth_sub_iterate, normMonth_id y m h1 h2]
  · intro y
    simp [get_rating_periods, List.range_succ, normMonth, Prod.ext_iff]
  · intro y
    simp [get_rating_periods, List.range_succ, normMonth, Prod.ext_iff]
    all_goals omega

theorem spec_C5_witness :
    (get_rating_periods 2024 1 3)[1]? = some (prevMonth^[1] (2024, 1)) :=
  spec_C5_period_enumeration.2.1 2024 1 3 1 (by decide) (by decide) (by decide)

theorem exists_len4 {α : Type} {l : List α} (h : l.length = 4) :
    ∃ a b c d, l = [a, b, c, d] := by
  rcases l with _ | ⟨a, _ | ⟨b, _ | ⟨c, _ | ⟨d, _ | ⟨e, rest⟩⟩⟩⟩⟩ <;>
    first
      | exact ⟨a, b, c, d, rfl⟩
      | simp_all

theorem exists_len8 {α : Type} {l : List α} (h : l.length = 8) :
    ∃ a b c d e f g k, l = [a, b, c, d, e, f, g, k] := by
  rcases l with _ | ⟨a, _ | ⟨b, _ | ⟨c, _ | ⟨d, _ | ⟨e, _ | ⟨f, _ | ⟨g, _ | ⟨k, _ | ⟨x, rest⟩⟩⟩⟩⟩⟩⟩⟩⟩ <;>
    first
      | exact ⟨a, b, c, d, e, f, g, k, rfl⟩
      | simp_all

theorem calc_performance_ok_inv {avg : Int} {pts : Rat} {rds : Int} {p : Int}
    (h : calc_performance avg pts rds = .ok p) :
    rds ≠ 0 ∧ (PERFORMANCE_TABLE.lookup (roundTo2 (pts / (rds : Rat)))).isSome := by
  simp only [calc_performance] at h
  split at h
  · simp at h
  · next hrds =>
    split at h
    · next off heq => exact ⟨hrds, by simp [heq]⟩
    · simp at h

theorem parsePair_ok_shape {period : String} {hr sr : List String} {t : Tournament}
    (hok : parsePair period hr sr = .ok t) : hr.length = 4 ∧ sr.length = 8 := by
  unfold parsePair at hok
  split at hok
  · next a b c d hm4 =>
    split at hok
    · next a0 a1 a2 a3 a4 a5 a6 a7 hm8 =>
      refine ⟨?_, ?_⟩
      · have := congrArg List.length hm4; simpa using this
      · have := congrArg List.length hm8; simpa using this
    · next => simp at hok
  · next => simp at hok

theorem parsePair_ok_inv {period : String} {hr sr : List String} {t : Tournament}
    (hok : parsePair period hr sr = .ok t) :
    t.rds ≠ 0 ∧ (PERFORMANCE_TABLE.lookup (roundTo2 (t.pts / (t.rds : Rat)))).isSome := by
  unfold parsePair at hok
  split at hok
  · next a b c d hm4 =>
    split at hok
    · next a0 a1 a2 a3 a4 a5 a6 a7 hm8 =>
      split at hok
      · simp at hok
      · next ptsV hpts =>
        split at hok
        · simp at hok
        · next rdsV hrds =>
          split at hok
          · simp at hok
          · next avgV havg =>
            split at hok
            · simp at hok
            · next chgV hchg =>
              split at hok
              · next e heq => simp at hok
              · next perf heq =>
                cases hok
                simpa using calc_performance_ok_inv heq
    · next => simp at hok
  · next => simp at hok

theorem parsePairs_ok_mem {period : String} :
    ∀ {pairs : List (List String × List String)} {recs : List Tournament},
      parsePairs period pairs = .ok recs →
      ∀ t ∈ recs, ∃ p ∈ pairs, parsePair period p.1 p.2 = .ok t
  | [], recs, h, t, ht => by
    simp only [parsePairs] at h
    cases h
    simp at ht
  | (hr, sr) :: rest, recs, h, t, ht => by
    simp only [parsePairs] at h
    split at h
    · simp at h
    · next t0 h0 =>
      split at h
      · simp at h
      · next ts hts =>
        cases h
        rcases List.mem_cons.mp ht with rfl | hmem
        · exact ⟨(hr, sr), List.mem_cons_self _ _, h0⟩
        · obtain ⟨p, hp, hpok⟩ := parsePairs_ok_mem hts t hmem
          exact ⟨p, List.mem_cons_of_mem _ hp, hpok⟩

theorem parsePair_of_wf {period : String} {hr sr : List String}
    (h : wellFormedPair hr sr) : ∃ t, parsePair period hr sr = .ok t := by
  unfold wellFormedPair at h
  split at h
  · next n c k d s0 s1 s2 s3 s4 s5 s6 s7 hm4 hm8 =>
    simp only [Bool.and_eq_true, bne_iff_ne, ne_eq] at h
    obtain ⟨⟨⟨⟨⟨hpts, hrds⟩, havg⟩, hchg⟩, hrne⟩, hlook⟩ := h
    obtain ⟨ptsV, hp⟩ := Option.isSome_iff_exists.mp hpts
    obtain ⟨rdsV, hri⟩ := Option.isSome_iff_exists.mp hrds
    obtain ⟨avgV, ha⟩ := Option.isSome_iff_exists.mp havg
    obtain ⟨chgV, hc⟩ := Option.isSome_iff_exists.mp hchg
    rw [hp, hri] at hlook
    simp only [Option.getD_some] at hlook
    obtain ⟨off, ho⟩ := Option.isSome_iff_exists.mp hlook
    rw [hri] at hrne
    simp only [Option.getD_some] at hrne
    have hcalc : calc_performance avgV ptsV rdsV = .ok (avgV + off) :=
      calc_performance_ok hrne ho
    have hps : parsePair period hr sr =
        .ok ⟨period, n, c, k, ptsV, rdsV, avgV, chgV, avgV + off⟩ := by
      simp only [parsePair, hm4, hm8, hp, hri, ha, hc, hcalc]
    exact ⟨_, hps⟩
  · exact absurd h (by simp)

theorem parsePairs_of_wf {period : String} :
    ∀ {pairs : List (List String × List String)},
      (∀ p ∈ pairs, wellFormedPair p.1 p.2) →
      ∃ recs, parsePairs period pairs = .ok recs ∧
        List.Forall₂ (fun p t => parsePair period p.1 p.2 = .ok t) pairs recs
  | [], _ => ⟨[], rfl, List.Forall₂.nil⟩
  | (hr, sr) :: rest, h => by
    obtain ⟨t, ht⟩ := @parsePair_of_wf period hr sr (h _ (List.mem_cons_self _ _))
    obtain ⟨recs, hrecs, hfa⟩ :=
      parsePairs_of_wf (fun p hp => h p (List.mem_cons_of_mem _ hp))
    refine ⟨t :: recs, ?_, List.Forall₂.cons ht hfa⟩
    simp only [parsePairs, ht, hrecs]

theorem parsePairs_error_of_bad {period : String} :
    ∀ {pairs : List (List String × List String)},
      (∃ p ∈ pairs, ∀ t, parsePair period p.1 p.2 ≠ .ok t) →
      ∃ e, parsePairs period pairs = .error e
  | [], h => by simp at h
  | (hr, sr) :: rest, ⟨p, hp, hbad⟩ => by
    cases hparse : parsePair period hr sr with
    | error e => exact ⟨e, by simp only [parsePairs, hparse]⟩
    | ok t =>
      rcases List.mem_cons.mp hp with rfl | hmem
      · exact absurd hparse (hbad t)
      · obtain ⟨e, he⟩ := parsePairs_error_of_bad ⟨p, hmem, hbad⟩
        exact ⟨e, by simp only [parsePairs, hparse, he]⟩

/-- C2 (amended): for every document whose header and score row groups have
equal length and consist of well-formed pairs, parsing returns exactly N
records, one per pair in source order; every returned record has nonzero
rounds and a rounded score ratio that is a Performance Table key.  (The
original claim's `rounds > 0` and `points ≤ rounds` do not hold: the code
never checks them — see the counterexample.) -/
theorem spec_C2_roundtrip_amended :
    ∀ (period : String) (hs ss : List (List String)),
      hs.length = ss.length →
      (∀ p ∈ hs.zip ss, wellFormedPair p.1 p.2) →
      ∃ recs, parseTables period hs ss = .ok recs ∧
        recs.length = hs.length ∧
        List.Forall₂ (fun p t => parsePair period p.1 p.2 = .ok t) (hs.zip ss) recs ∧
        ∀ t ∈ recs, t.rds ≠ 0 ∧
          (PERFORMANCE_TABLE.lookup (roundTo2 (t.pts / (t.rds : Rat)))).isSome := by
  intro period hs ss hlen hwf
  obtain ⟨recs, hok, hfa⟩ := parsePairs_of_wf hwf
  refine ⟨recs, ?_, ?_, hfa, ?_⟩
  · unfold parseTables
    rw [if_neg (not_not_intro hlen)]
    exact hok
  · have hl := List.Forall₂.length_eq hfa
    rw [List.length_zip] at hl
    omega
  · intro t ht
    obtain ⟨p, hp, hpok⟩ := parsePairs_ok_mem hok t ht
    exact parsePair_ok_inv hpok

unseal Rat.add Rat.mul Rat.sub Rat.inv in
/-- C2 counterexample: a document of two well-formed pairs parses into two
records, the first with `rounds = -2 < 0` and the second with
`points = 9.04 > 9 = rounds`, refuting the claimed invariant. -/
theorem spec_C2_counterexample :
    wellFormedPair ["T", "C", "K", "D"] ["-1000", "0", "-1", "-2", "0", "0", "0", "0"] ∧
    wellFormedPair ["T2", "C2", "K2", "D2"] ["2000", "0", "9.04", "9", "0", "0", "0", "0"] ∧
    parseTables "P" [["T", "C", "K", "D"], ["T2", "C2", "K2", "D2"]]
        [["-1000", "0", "-1", "-2", "0", "0", "0", "0"],
         ["2000", "0", "9.04", "9", "0", "0", "0", "0"]] =
      .ok [⟨"P", "T", "C", "K", -1, -2, -1000, 0, -1000⟩,
           ⟨"P", "T2", "C2", "K2", 226/25, 9, 2000, 0, 2800⟩] ∧
    (⟨"P", "T", "C", "K", -1, -2, -1000, 0, -1000⟩ : Tournament).rds < 0 ∧
    ((⟨"P", "T2", "C2", "K2", 226/25, 9, 2000, 0, 2800⟩ : Tournament).rds : Rat) <
      (⟨"P", "T2", "C2", "K2", 226/25, 9, 2000, 0, 2800⟩ : Tournament).pts := by
  decide

/-- C6 (amended): a cell-count mismatch on any row (≠ 4 for a header row,
≠ 8 for a score row) makes parsing of the whole document fail with an error
— no records are produced; the error raised at the offending row is the
interpreter's unpacking `ValueError` carrying expected and actual cell
counts (here 4 and 3) but not the row index. -/
theorem spec_C6_rowshape_amended :
    (∀ (period : String) (hs ss : List (List String)),
      (∃ p ∈ hs.zip ss, p.1.length ≠ 4 ∨ p.2.length ≠ 8) →
      ∃ e, parseTables period hs ss = .error e) ∧
    parseTables "P" [["a", "b", "c"]] [["0", "0", "1", "1", "0", "0", "0", "0"]] =
      .error (.valueErrorUnpack 4 3) := by
  constructor
  · intro period hs ss ⟨p, hp, hbad⟩
    unfold parseTables
    by_cases hlen : hs.length ≠ ss.length
    · exact ⟨.typeErrorStrDiv, by rw [if_pos hlen]⟩
    · rw [if_neg hlen]
      apply parsePairs_error_of_bad
      refine ⟨p, hp, fun t ht => ?_⟩
      obtain ⟨h4, h8⟩ := parsePair_ok_shape ht
      rcases hbad with hb | hb
      · exact hb h4
      · exact hb h8
  · decide

unseal Rat.add Rat.mul Rat.sub Rat.inv in
/-- C6 counterexample: two documents whose offending 3-cell header row sits
at different indices (0 in the first, 1 in the second) produce identical
errors, so the raised error does not identify the index of the offending
row as the claim states. -/
theorem spec_C6_counterexample :
    parseTables "P" [["a", "b", "c"]] [["0", "0", "1", "1", "0", "0", "0", "0"]] =
      parseTables "P" [["T", "C", "K", "D"], ["a", "b", "c"]]
        [["2000", "0", "1", "1", "0", "0", "0", "0"],
         ["0", "0", "1", "1", "0", "0", "0", "0"]] ∧
    parseTables "P" [["a", "b", "c"]] [["0", "0", "1", "1", "0", "0", "0", "0"]] =
      .error (.valueErrorUnpack 4 3) := by
  decide

/-- C8 (amended): `rounds = 0` makes `calc_performance` fail with
`ZeroDivisionError` (the division on line 87 runs before the table lookup
on line 88, so the lookup is never attempted), and every record a
successful parse constructs has nonzero rounds.  (The original claim's
"unreachable through parsing" is false: the parser has no rounds check, and
a zero-rounds score row aborts parsing with exactly this error — see the
counterexample.) -/
theorem spec_C8_division_guard_amended :
    (∀ (avg : Int) (pts : Rat), calc_performance avg pts 0 = .error .zeroDivisionError) ∧
    (∀ (period : String) (hs ss : List (List String)) (recs : List Tournament),
      parseTables period hs ss = .ok recs → ∀ t ∈ recs, t.rds ≠ 0) := by
  constructor
  · intro avg pts
    simp [calc_performance]
  · intro period hs ss recs hok t ht
    unfold parseTables at hok
    split at hok
    · simp at hok
    · obtain ⟨p, hp, hpok⟩ := parsePairs_ok_mem hok t ht
      exact (parsePair_ok_inv hpok).1

unseal Rat.add Rat.mul Rat.sub Rat.inv in
/-- C8 counterexample: a document whose score row has rds cell "0" drives
the parser into `calc_performance`, which raises `ZeroDivisionError` — the
error is reachable through parsing, refuting the claim's unreachability
part. -/
theorem spec_C8_counterexample :
    parseTables "P" [["T", "C", "K", "D"]]
        [["2000", "0", "5", "0", "0", "0", "0", "0"]] =
      .error .zeroDivisionError ∧
    scrape_rating_reports
      [{ table0Text := "x", table1Text := "y",
         trn_headers := [["T", "C", "K", "D"]],
         trn_scores := [["2000", "0", "5", "0", "0", "0", "0", "0"]] }] =
      .error .zeroDivisionError := by
  decide

unseal Rat.add Rat.mul Rat.sub Rat.inv in
theorem spec_C8_witness :
    (⟨"P", "T", "C", "K", 7, 9, 2000, -(17/5), 2220⟩ : Tournament).rds ≠ 0 :=
  spec_C8_division_guard_amended.2 "P" [["T", "C", "K", "D"]]
    [["2000", "2100", "7", "9", "1", "10", "-3.4", ""]]
    [⟨"P", "T", "C", "K", 7, 9, 2000, -(17/5), 2220⟩] (by decide)
    _ (by decide)

unseal Rat.add Rat.mul Rat.sub Rat.inv in
theorem spec_C2_witness :
    ∃ recs, parseTables "P" [["T", "C", "K", "D"]]
        [["2000", "2100", "7", "9", "1", "10", "-3.4", ""]] = .ok recs ∧
      recs.length = [["T", "C", "K", "D"]].length ∧
      List.Forall₂ (fun p t => parsePair "P" p.1 p.2 = .ok t)
        ([["T", "C", "K", "D"]].zip [["2000", "2100", "7", "9", "1", "10", "-3.4", ""]]) recs ∧
      ∀ t ∈ recs, t.rds ≠ 0 ∧
        (PERFORMANCE_TABLE.lookup (roundTo2 (t.pts / (t.rds : Rat)))).isSome :=
  spec_C2_roundtrip_amended "P" [["T", "C", "K", "D"]]
    [["2000", "2100", "7", "9", "1", "10", "-3.4", ""]] (by decide) (by decide)

theorem spec_C6_witness :
    ∃ e, parseTables "P" [["a", "b", "c"]]
        [["0", "0", "1", "1", "0", "0", "0", "0"]] = .error e :=
  spec_C6_rowshape_amended.1 "P" [["a", "b", "c"]]
    [["0", "0", "1", "1", "0", "0", "0", "0"]]
    ⟨(["a", "b", "c"], ["0", "0", "1", "1", "0", "0", "0", "0"]), by decide, Or.inl (by decide)⟩

/-- `Rat.floor` agrees with the `Int.floor` of the order structure. -/
theorem ratFloor_eq (q : Rat) : q.floor = ⌊q⌋ := by
  rw [Rat.floor_def', Rat.floor_def]

/-- `roundHE` written with `Int.floor`. -/
theorem roundHE_floor_form (q : Rat) :
    roundHE q = if q - ⌊q⌋ < 1/2 then ⌊q⌋
                else if 1/2 < q - ⌊q⌋ then ⌊q⌋ + 1
                else if ⌊q⌋ % 2 = 0 then ⌊q⌋ else ⌊q⌋ + 1 := by
  simp only [roundHE, ratFloor_eq]

/-- Half-to-even rounding commutes with reflection about 50: since 100 is
even, the tie-breaking parity also mirrors. -/
theorem roundHE_hundred_sub (t : Rat) : roundHE (100 - t) = 100 - roundHE t := by
  have hfl : ((⌊t⌋ : Rat)) ≤ t := Int.floor_le t
  have hfu : t < ⌊t⌋ + 1 := Int.lt_floor_add_one t
  rw [roundHE_floor_form, roundHE_floor_form]
  rcases eq_or_lt_of_le hfl with h0 | hpos
  · have h100 : ⌊(100 : Rat) - t⌋ = 100 - ⌊t⌋ := by
      rw [← h0, show (100 : Rat) - (⌊t⌋ : Rat) = ((100 - ⌊t⌋ : Int) : Rat) by push_cast; ring]
      exact Int.floor_intCast _
    rw [h100]
    push_cast
    split_ifs <;> first | omega | linarith
  · have h99 : ⌊(100 : Rat) - t⌋ = 99 - ⌊t⌋ := by
      rw [Int.floor_eq_iff]
      constructor
      · push_cast; linarith
      · push_cast; linarith
    rw [h99]
    push_cast
    split_ifs <;> first | omega | linarith

/-- Two-decimal rounding commutes with reflection about one half. -/
theorem roundTo2_one_sub (p : Rat) : roundTo2 (1 - p) = 1 - roundTo2 p := by
  unfold roundTo2
  rw [show (1 - p) * 100 = 100 - p * 100 by ring, roundHE_hundred_sub]
  push_cast
  ring

unseal Rat.add Rat.mul Rat.sub Rat.inv in
/-- Every key s of the table has 1 - s as a key, carrying the negated
offset (checked entry by entry). -/
theorem perfTable_antisym :
    ∀ p ∈ PERFORMANCE_TABLE, PERFORMANCE_TABLE.lookup (1 - p.1) = some (-p.2) := by
  decide

/-- C10: the Performance Table is antisymmetric about the midpoint score —
for every key s, 1 - s is also a key and its offset is the negation — and
consequently, whenever `calc_performance 0 points rounds` is defined, the
mirrored call on `rounds - points` returns its negation (so both lookups
are defined and opposite, as claimed). -/
theorem spec_C10_antisymmetry :
    (∀ p ∈ PERFORMANCE_TABLE, PERFORMANCE_TABLE.lookup (1 - p.1) = some (-p.2)) ∧
    (∀ (pts : Rat) (rds : Int) (a : Int),
      calc_performance 0 pts rds = .ok a →
      calc_performance 0 ((rds : Rat) - pts) rds = .ok (-a)) := by
  refine ⟨perfTable_antisym, ?_⟩
  intro pts rds a h
  simp only [calc_performance] at h ⊢
  by_cases hrds : rds = 0
  · rw [if_pos hrds] at h
    exact absurd h (by simp)
  · rw [if_neg hrds] at h ⊢
    cases hl : PERFORMANCE_TABLE.lookup (roundTo2 (pts / (rds : Rat))) with
    | none => rw [hl] at h; exact absurd h (by simp)
    | some off =>
      rw [hl] at h
      simp only [Except.ok.injEq] at h
      have hmem := lookup_mem hl
      have h2 := perfTable_antisym _ hmem
      have hsub : ((rds : Rat) - pts) / (rds : Rat) = 1 - pts / (rds : Rat) := by
        field_simp
      rw [hsub, roundTo2_one_sub, h2]
      simp [← h]

unseal Rat.add Rat.mul Rat.sub Rat.inv in
theorem spec_C10_witness :
    PERFORMANCE_TABLE.lookup (1 - 78/100) = some (-220) ∧
    calc_performance 0 ((9 : Rat) - 7) 9 = .ok (-220) :=
  ⟨spec_C10_antisymmetry.1 (78/100, 220) (by decide),
   spec_C10_antisymmetry.2 7 9 220 (by decide)⟩
